import Mathlib

/-!
Verification of the aggregation pipeline of `IFO.py` (Driver-Summary dashboard).

The raw order table is embedded as a `List OrderRecord`.  Timestamps are
modelled as minutes since an arbitrary epoch (`Nat`); a missing timestamp
(pandas `NaT`) is `none`.  The calendar date of a timestamp is its day
number `t / 1440`, mirroring `.dt.date`; the hour component is
`t % 1440 / 60`, mirroring `.hour`.  Real-number division used by the
percentage computations is modelled exactly over `ℚ`/`ℕ` (floor semantics of
Python's `int(...)` on a nonnegative value), abstracting from float64
rounding.  pandas `groupby` iterates groups in sorted key order; where a
result is order-independent (sums, row multisets) group keys are taken in
first-occurrence order via `List.dedup`, and where the order matters
(`idxmax` tie-breaking in the primary-hub computation) the keys are sorted
explicitly.  The unguarded `int(NaN)` conversion in the Hub-Summary grand
total (a `ValueError` at run time) is modelled by an `Option` result.
-/

/-- One row of the raw order table fetched from the BI query
(columns of `df` in `IFO.py`). -/
structure OrderRecord where
  driver_vehicle : String
  vehicle_model : String
  delivery_hub : String
  status : String
  customer : String
  delivered_on : Option Nat
  first_out_for_delivery_on : Option Nat
  latest_out_for_delivery_on : Option Nat
  last_delivery_unable_to : Option Nat
  returned_datetime_on : Option Nat
  picked_on : Option Nat
  last_attempted_on : Option Nat
deriving DecidableEq, Repr

/-- Day number of a timestamp (minutes since epoch), mirroring `.dt.date`. -/
def dateOf (t : Nat) : Nat := t / 1440

/-- Hour component of a timestamp, mirroring `.dt.hour` / `timestamp.hour`. -/
def hourOf (t : Nat) : Nat := t % 1440 / 60

/-- Date of an optional timestamp; a missing timestamp has no date, so a
date-equality filter (`.dt.date == selected_date`) is false on `NaT`. -/
def optDate (o : Option Nat) : Option Nat := o.map dateOf

instance decExistsSome (o : Option Nat) (P : Nat → Prop) [DecidablePred P] :
    Decidable (∃ t, o = some t ∧ P t) :=
  match o with
  | none => isFalse (by simp)
  | some t => decidable_of_iff (P t) (by simp)

/-! ### Driver Summary (`IFO.py` lines 117-192) -/

/-- Lines 117-120: records whose `Delivered on` date equals the selected
date AND whose hub is the selected hub. -/
def filtered_df (df : List OrderRecord) (d : Nat) (hub : String) : List OrderRecord :=
  df.filter fun r => decide (optDate r.delivered_on = some d ∧ r.delivery_hub = hub)

/-- Lines 123-130: the separately filtered Out-For-Delivery set, grouped by
driver; the merge on lines 143-146 gives each driver row this count
(0 when the driver is absent from the group-by, via `fillna(0)`). -/
def out_on_road_count (df : List OrderRecord) (d : Nat) (hub driver : String) : Nat :=
  (df.filter fun r => decide (r.status = "Out-For-Delivery" ∧
    optDate r.latest_out_for_delivery_on = some d ∧
    r.delivery_hub = hub ∧ r.driver_vehicle = driver)).length

/-- Group key of the driver-summary group-by (lines 133). -/
structure DriverKey where
  driver : String
  model : String
  hub : String
deriving DecidableEq, Repr

/-- Group keys present in `filtered_df` (first-occurrence order; the row
order is irrelevant to every property proved below). -/
def driver_keys (df : List OrderRecord) (d : Nat) (hub : String) : List DriverKey :=
  ((filtered_df df d hub).map fun r =>
    DriverKey.mk r.driver_vehicle r.vehicle_model r.delivery_hub).dedup

/-- One row of the driver summary table (`final_df`). -/
structure DriverRow where
  name : String
  model : String
  total : Nat
  delivered : Nat
  unable : Nat
  returned : Nat
  out_on_road : Nat
  delivered_pct : String
deriving DecidableEq, Repr

/-- Integer percent string: `(num/den*100)` with `fillna(0)` and `astype(int)`
(floor, exact-arithmetic model), lines 160-163. -/
def pctStr (num den : Nat) : String :=
  if den = 0 then "0%" else toString (num * 100 / den) ++ "%"

/-- Lines 133-163: one driver-summary row for a group key.  `Delivered`
counts status=Delivered with matching `Delivered on` date; `Unable_to_delivery`
and `Returned` count non-missing values (pandas `'count'`); `Out_on_road`
comes from the separate merge. -/
def mkDriverRow (df : List OrderRecord) (d : Nat) (hub : String) (k : DriverKey) : DriverRow :=
  let g := (filtered_df df d hub).filter fun r =>
    decide (r.driver_vehicle = k.driver ∧ r.vehicle_model = k.model ∧ r.delivery_hub = k.hub)
  let delivered := (g.filter fun r =>
    decide (r.status = "Delivered" ∧ optDate r.delivered_on = some d)).length
  let unable := (g.filter fun r => decide (r.last_delivery_unable_to ≠ none)).length
  let returned := (g.filter fun r => decide (r.returned_datetime_on ≠ none)).length
  let out := out_on_road_count df d hub k.driver
  let total := delivered + unable + returned + out
  { name := k.driver
    model := k.model
    total := total
    delivered := delivered
    unable := unable
    returned := returned
    out_on_road := out
    delivered_pct := pctStr delivered total }

/-- The driver summary table (`final_df` before the Grand Total row). -/
def driver_summary (df : List OrderRecord) (d : Nat) (hub : String) : List DriverRow :=
  (driver_keys df d hub).map (mkDriverRow df d hub)

/-- Lines 180-192: the Grand Total row: column-wise sum of the numeric
columns (`sum(numeric_only=True)`); `Delivered %` recomputed from the grand
totals, guarded by `if grand_total['Total order count'] > 0`. -/
def grand_total (rows : List DriverRow) : DriverRow :=
  let t := (rows.map (·.total)).sum
  let dl := (rows.map (·.delivered)).sum
  let u := (rows.map (·.unable)).sum
  let rt := (rows.map (·.returned)).sum
  let o := (rows.map (·.out_on_road)).sum
  { name := "Grand Total"
    model := ""
    total := t
    delivered := dl
    unable := u
    returned := rt
    out_on_road := o
    delivered_pct := if 0 < t then toString (dl * 100 / t) ++ "%" else "0%" }

/-! ### Hub Summary (`IFO.py` lines 220-338) -/

/-- Lines 222 / 360: rows whose `Latest Out-For-Delivery on` date equals the
selected date (the "active on the selected date" restriction). -/
def nov_filtered (df : List OrderRecord) (d : Nat) : List OrderRecord :=
  df.filter fun r => decide (optDate r.latest_out_for_delivery_on = some d)

/-- Line 225: deliveries per (driver, hub) pair — pandas
`['Delivered on'].count()` counts the non-missing `Delivered on` values. -/
def delivery_count (dff : List OrderRecord) (drv hub : String) : Nat :=
  (dff.filter fun r =>
    decide (r.driver_vehicle = drv ∧ r.delivery_hub = hub ∧ r.delivered_on ≠ none)).length

/-- Hubs at which a driver appears in the date-filtered set. -/
def hubs_of (dff : List OrderRecord) (drv : String) : List String :=
  ((dff.filter fun r => decide (r.driver_vehicle = drv)).map (·.delivery_hub)).dedup

/-- Insert an element into a list before the first entry it compares `le`
to (insertion step of a stable sort). -/
def insertSorted (le : α → α → Bool) (x : α) : List α → List α
  | [] => [x]
  | y :: ys => if le x y then x :: y :: ys else y :: insertSorted le x ys

/-- Stable insertion sort (structurally recursive, so concrete instances
evaluate inside the kernel). -/
def sortBy (le : α → α → Bool) : List α → List α
  | [] => []
  | x :: xs => insertSorted le x (sortBy le xs)

/-- Hubs of a driver in the sorted order pandas `groupby` produces
(group keys are sorted, so `idxmax` breaks ties towards the
lexicographically first hub). -/
def sorted_hubs_of (dff : List OrderRecord) (drv : String) : List String :=
  sortBy (fun a b => decide (a ≤ b)) (hubs_of dff drv)

/-- First element of a list attaining the maximal value of `f`
(the behaviour of `idxmax` over a group laid out in list order). -/
def argmaxFirst (f : α → Nat) : List α → Option α
  | [] => none
  | x :: xs =>
    match argmaxFirst f xs with
    | none => some x
    | some y => if f y ≤ f x then some x else some y

/-- Lines 229-231: a driver's primary hub — the (sorted-first) hub with the
maximum delivery count among the driver's (driver, hub) pairs. -/
def primary_hub_of (df : List OrderRecord) (d : Nat) (drv : String) : Option String :=
  argmaxFirst (delivery_count (nov_filtered df d) drv) (sorted_hubs_of (nov_filtered df d) drv)

/-- Drivers appearing in the date-filtered set (the drivers considered by
`calculate_number_of_vehicle`). -/
def considered_drivers (df : List OrderRecord) (d : Nat) : List String :=
  ((nov_filtered df d).map (·.driver_vehicle)).dedup

/-- The `primary_hub` table: one (driver, primary hub) row per considered
driver (`idxmax` selects exactly one row per driver). -/
def primary_hub_table (df : List OrderRecord) (d : Nat) : List (String × String) :=
  (considered_drivers df d).filterMap fun v => (primary_hub_of df d v).map fun h => (v, h)

/-- Lines 220-237: number of vehicles of a hub — `nunique` of the drivers in
the `primary_hub` table whose primary hub is this hub (0 when the hub is
absent, via the left merge and `fillna(0)` on lines 289/295). -/
def calculate_number_of_vehicle (df : List OrderRecord) (d : Nat) (hub : String) : Nat :=
  ((((primary_hub_table df d).filter fun p => decide (p.2 = hub)).map Prod.fst).dedup).length

/-- Lines 240-261: the backlog set — `Picked on` before the 15:00 cutoff of
the selected date, `Last attempted on` before (midnight of) the selected
date, status in the three unresolved states.  `NaT` compares false. -/
def backlog_df (df : List OrderRecord) (d : Nat) : List OrderRecord :=
  df.filter fun r => decide (
    (∃ tp, r.picked_on = some tp ∧ tp < d * 1440 + 15 * 60) ∧
    (∃ ta, r.last_attempted_on = some ta ∧ ta < d * 1440) ∧
    r.status ∈ ["Picked", "At-Hub", "Returned-To-Hub"])

/-- Backlog count of a hub (group-by size; 0 for an absent hub via the left
merge and `fillna(0)` on lines 292/296). -/
def backlog_count (df : List OrderRecord) (d : Nat) (hub : String) : Nat :=
  ((backlog_df df d).filter fun r => decide (r.delivery_hub = hub)).length

/-- One row of the Hub Wise Summary table. -/
structure HubRow where
  hub : String
  number_of_vehicle : Nat
  total_order_count : Nat
  delivered : Nat
  unable : Nat
  returned : Nat
  out_on_road : Nat
  attempt_pct : String
  delivered_pct : String
  backlogs : Nat
deriving DecidableEq, Repr

/-- Hub group keys of the full table (first-occurrence order). -/
def hub_names (df : List OrderRecord) : List String :=
  (df.map (·.delivery_hub)).dedup

/-- Lines 270-296: the raw hub row — `Total_order_count` is the raw group
size at this stage; the four outcome buckets are date-filtered counts; the
vehicle and backlog numbers come from the two merges. -/
def hub_row_raw (df : List OrderRecord) (d : Nat) (hub : String) : HubRow :=
  let g := df.filter fun r => decide (r.delivery_hub = hub)
  let delivered := (g.filter fun r =>
    decide (r.status = "Delivered" ∧ optDate r.delivered_on = some d)).length
  let unable := (g.filter fun r => decide (optDate r.last_delivery_unable_to = some d)).length
  let returned := (g.filter fun r => decide (optDate r.returned_datetime_on = some d)).length
  let out := (g.filter fun r => decide (r.status = "Out-For-Delivery" ∧
    optDate r.latest_out_for_delivery_on = some d)).length
  { hub := hub
    number_of_vehicle := calculate_number_of_vehicle df d hub
    total_order_count := g.length
    delivered := delivered
    unable := unable
    returned := returned
    out_on_road := out
    attempt_pct := ""
    delivered_pct := ""
    backlogs := backlog_count df d hub }

/-- Lines 299-314: `Total_order_count` is overwritten with the sum of the
four buckets, and the two percentage columns are computed from the
overwritten total (`fillna(0)` guards the 0/0 case per row). -/
def recompute_totals (row : HubRow) : HubRow :=
  let t := row.delivered + row.unable + row.returned + row.out_on_road
  { row with
      total_order_count := t
      attempt_pct := pctStr (row.delivered + row.unable + row.returned) t
      delivered_pct := pctStr row.delivered t }

/-- The Hub Wise Summary table before the Grand Total row. -/
def hub_wise (df : List OrderRecord) (d : Nat) : List HubRow :=
  (hub_names df).map fun h => recompute_totals (hub_row_raw df d h)

/-- Lines 330-338: the Hub Summary Grand Total row.  The percentage lines
have NO zero-denominator guard: when the summed `Total_order_count` is 0 the
division yields NaN and `int(NaN)` raises `ValueError`, modelled as `none`. -/
def grand_total_hub (rows : List HubRow) : Option HubRow :=
  let t := (rows.map (·.total_order_count)).sum
  let dl := (rows.map (·.delivered)).sum
  let u := (rows.map (·.unable)).sum
  let rt := (rows.map (·.returned)).sum
  let o := (rows.map (·.out_on_road)).sum
  let nv := (rows.map (·.number_of_vehicle)).sum
  let bk := (rows.map (·.backlogs)).sum
  if t = 0 then none
  else some
    { hub := "Grand Total"
      number_of_vehicle := nv
      total_order_count := t
      delivered := dl
      unable := u
      returned := rt
      out_on_road := o
      attempt_pct := toString ((dl + u + rt) * 100 / t) ++ "%"
      delivered_pct := toString (dl * 100 / t) ++ "%"
      backlogs := bk }

/-! ### Vehicle Utilization (`IFO.py` lines 358-459) -/

/-- (hub, model) pairs at which a driver appears in the date-filtered set. -/
def hub_models_of (dff : List OrderRecord) (drv : String) : List (String × String) :=
  ((dff.filter fun r => decide (r.driver_vehicle = drv)).map fun r =>
    (r.delivery_hub, r.vehicle_model)).dedup

/-- Lexicographic order on (hub, model) pairs — the sorted order of the
three-key `groupby` on lines 363-368 within one driver. -/
def pairLe (p q : String × String) : Bool :=
  decide (p.1 < q.1 ∨ (p.1 = q.1 ∧ p.2 ≤ q.2))

/-- Sorted (hub, model) pairs of a driver. -/
def sorted_hub_models_of (dff : List OrderRecord) (drv : String) : List (String × String) :=
  sortBy pairLe (hub_models_of dff drv)

/-- Deliveries (non-missing `Delivered on`) of a driver in one
(hub, model) group. -/
def delivery_count_hm (dff : List OrderRecord) (drv : String) (hm : String × String) : Nat :=
  (dff.filter fun r => decide (r.driver_vehicle = drv ∧ r.delivery_hub = hm.1 ∧
    r.vehicle_model = hm.2 ∧ r.delivered_on ≠ none)).length

/-- Lines 372-374: a driver's primary (hub, model) pair by `idxmax`. -/
def primary_hub_model_of (df : List OrderRecord) (d : Nat) (drv : String) :
    Option (String × String) :=
  argmaxFirst (delivery_count_hm (nov_filtered df d) drv) (sorted_hub_models_of (nov_filtered df d) drv)

/-- Distinct considered drivers whose primary (hub, model) pair is
(`hub`, `model`) — the `nunique` per hub of lines 377-391. -/
def count_of_model (df : List OrderRecord) (d : Nat) (hub model : String) : Nat :=
  ((considered_drivers df d).filter fun v =>
    decide (primary_hub_model_of df d v = some (hub, model))).length

/-- Lines 377-400: the `vehicle_counts` table.  A hub has a row iff it is
the primary hub of at least one Bike or Auto-Rickshaw driver (outer merge of
the two count tables); inside the table missing counts are filled with 0.
A hub with no row yields NaN counts after the left merge on line 414
(pandas does NOT fill them there), modelled as `none`. -/
def vehicle_counts_row (df : List OrderRecord) (d : Nat) (hub : String) : Option (Nat × Nat) :=
  let b := count_of_model df d hub "Bike"
  let a := count_of_model df d hub "Auto Rickshaw"
  if b + a = 0 then none else some (b, a)

/-- One row of the Vehicle Utilization table.  The count/total columns are
`Option Nat`: `none` models the NaN a hub absent from `vehicle_counts`
carries after the unfilled left merge.  The ratio and productivity columns
hold the rounded numeric value that the f-string renders. -/
structure VehicleUtilRow where
  hub : String
  count_of_bikes : Option Nat
  count_of_autos : Option Nat
  total_count : Option Nat
  ratio_bikes : ℚ
  ratio_autos : ℚ
  avg_productivity : ℚ
deriving DecidableEq, Repr

/-- Python `round(x, 2)` on an exact rational (round-half semantics of the
model; the sum property below only uses `|roundTo2 x - x| ≤ 1/200`). -/
def roundTo2 (q : ℚ) : ℚ := (round (100 * q) : ℤ) / 100

/-- `(num/den)` with pandas `fillna(0)`: 0 when either side is NaN or the
denominator is 0 (0/0 → NaN → 0). -/
def ratioOf (num den : Option Nat) : ℚ :=
  match num, den with
  | some n, some t => if t = 0 then 0 else (n : ℚ) / t
  | _, _ => 0

/-- Lines 409-414: the raw vehicle-utilization row — `Total_count` starts as
the raw distinct-vehicle count of the full table, and the bike/auto counts
come from the left merge with `vehicle_counts`. -/
def mkVehicleRowRaw (df : List OrderRecord) (d : Nat) (h : String) : VehicleUtilRow :=
  let raw := ((df.filter fun r => decide (r.delivery_hub = h)).map (·.driver_vehicle)).dedup.length
  { hub := h
    count_of_bikes := (vehicle_counts_row df d h).map (·.1)
    count_of_autos := (vehicle_counts_row df d h).map (·.2)
    total_count := some raw
    ratio_bikes := 0
    ratio_autos := 0
    avg_productivity := 0 }

/-- NaN-propagating addition of the two count columns (line 417). -/
def optAdd : Option Nat → Option Nat → Option Nat
  | some a, some b => some (a + b)
  | _, _ => none

/-- Lines 417-447: overwrite `Total_count` with bikes + autos, compute the
two ratios (`round(x*100, 2)` of the `fillna(0)` quotient) and the average
productivity per driver (`Delivered` of the hub's Hub-Summary row over the
overwritten total). -/
def finalize_vehicle_row (delivered : Nat) (row : VehicleUtilRow) : VehicleUtilRow :=
  let t := optAdd row.count_of_bikes row.count_of_autos
  { row with
      total_count := t
      ratio_bikes := roundTo2 (100 * ratioOf row.count_of_bikes t)
      ratio_autos := roundTo2 (100 * ratioOf row.count_of_autos t)
      avg_productivity := roundTo2 (ratioOf (some delivered) t) }

/-- Date-filtered Delivered count of a hub (the `Delivered` column the
Vehicle Utilization table pulls from the Hub Summary on lines 435-439). -/
def hub_delivered (df : List OrderRecord) (d : Nat) (hub : String) : Nat :=
  ((df.filter fun r => decide (r.delivery_hub = hub)).filter fun r =>
    decide (r.status = "Delivered" ∧ optDate r.delivered_on = some d)).length

/-- The Vehicle Utilization table, one row per hub of the full table. -/
def vehicle_utilization (df : List OrderRecord) (d : Nat) : List VehicleUtilRow :=
  (hub_names df).map fun h => finalize_vehicle_row (hub_delivered df d h) (mkVehicleRowRaw df d h)

/-! ### Time-bucket distribution (`IFO.py` lines 483-535 and 625-667) -/

/-- The fixed hub list of the sidebar filter (lines 87-94). -/
def delivery_hubs : List String :=
  ["Hebbal [ BH Micro warehouse ]",
   "Banashankari [ BH Micro warehouse ]",
   "Koramangala NGV [ BH Micro warehouse ]",
   "Mahadevapura [ BH Micro warehouse ]",
   "Chandra Layout [ BH Micro warehouse ]",
   "Kudlu [ BH Micro warehouse ]"]

/-- The fixed customer allow-list (lines 625-639). -/
def specified_customers : List String :=
  ["WESTSIDE UNIT OF TRENT LIMITED",
   "Herbalife Nutrition",
   "krishna ayurved",
   "Supertails",
   "ZISHTA TRADITIONS PRIVATE LIMITED",
   "The Whole Truth Foods",
   "Koskii",
   "Mokobara",
   "TATA CLiQ",
   "Ferns N Petals",
   "Curefit",
   "Assembly",
   "BHAWAR SALES CORPORATION"]

/-- The 17 named time buckets with their half-open hour intervals
(lines 483-501). -/
def time_buckets : List (String × Nat × Nat) :=
  [("12AM-1AM", 0, 1),
   ("1AM-2AM", 1, 2),
   ("2AM-3AM", 2, 3),
   ("3AM-4AM", 3, 4),
   ("4AM-5AM", 4, 5),
   ("5AM-6AM", 5, 6),
   ("6AM-9AM", 6, 9),
   ("9AM-11AM", 9, 11),
   ("11AM-1PM", 11, 13),
   ("1PM-3PM", 13, 15),
   ("3PM-4PM", 15, 16),
   ("4PM-5PM", 16, 17),
   ("5PM-6PM", 17, 18),
   ("6PM-7PM", 18, 19),
   ("7PM-9PM", 19, 21),
   ("9PM-11PM", 21, 23),
   ("11PM-12AM", 23, 24)]

/-- Bucket labels in display order. -/
def bucket_names : List String := time_buckets.map (·.1)

/-- The loop body of `categorize_time`: first bucket whose half-open hour
interval contains the hour. -/
def hour_bucket (h : Nat) : Option String :=
  (time_buckets.find? fun b => decide (b.2.1 ≤ h ∧ h < b.2.2)).map (·.1)

/-- Lines 503-510: `categorize_time` — `None` on a missing timestamp,
otherwise the bucket of the hour component. -/
def categorize_time (o : Option Nat) : Option String :=
  o.bind fun t => hour_bucket (hourOf t)

/-- Line 517: records whose `First Out-For-Delivery on` date is the
selected date. -/
def fod_filtered (df : List OrderRecord) (d : Nat) : List OrderRecord :=
  df.filter fun r => decide (optDate r.first_out_for_delivery_on = some d)

/-- Group-by count for one (hub, bucket) cell of the hub view. -/
def hub_bucket_count (df : List OrderRecord) (d : Nat) (h b : String) : Nat :=
  ((fod_filtered df d).filter fun r => decide (r.delivery_hub = h ∧
    categorize_time r.first_out_for_delivery_on = some b)).length

/-- Lines 526-529: the dense (hub × bucket) key space. -/
def all_combinations : List (String × String) :=
  delivery_hubs.flatMap fun h => bucket_names.map fun b => (h, b)

/-- Lines 523-535: the dense hub-view time distribution — the left merge of
the full key space with the group-by, `fillna(0)`: every key carries its
group count, 0 when absent. -/
def time_distribution (df : List OrderRecord) (d : Nat) : List (String × String × Nat) :=
  all_combinations.map fun p => (p.1, p.2, hub_bucket_count df d p.1 p.2)

/-- Lines 646-649: records picked on the selected date by an allow-listed
customer. -/
def picked_filtered (df : List OrderRecord) (d : Nat) : List OrderRecord :=
  df.filter fun r => decide (optDate r.picked_on = some d ∧ r.customer ∈ specified_customers)

/-- Group-by count for one (customer, bucket) cell of the customer view. -/
def customer_bucket_count (df : List OrderRecord) (d : Nat) (c b : String) : Nat :=
  ((picked_filtered df d).filter fun r => decide (r.customer = c ∧
    categorize_time r.picked_on = some b)).length

/-- Lines 658-661: the dense (customer × bucket) key space. -/
def all_customer_combinations : List (String × String) :=
  specified_customers.flatMap fun c => bucket_names.map fun b => (c, b)

/-- Lines 655-667: the dense customer-view time distribution. -/
def customer_time_distribution (df : List OrderRecord) (d : Nat) : List (String × String × Nat) :=
  all_customer_combinations.map fun p => (p.1, p.2, customer_bucket_count df d p.1 p.2)

/-- Blank record used to build concrete test inputs. -/
def blank : OrderRecord :=
  { driver_vehicle := ""
    vehicle_model := ""
    delivery_hub := ""
    status := ""
    customer := ""
    delivered_on := none
    first_out_for_delivery_on := none
    latest_out_for_delivery_on := none
    last_delivery_unable_to := none
    returned_datetime_on := none
    picked_on := none
    last_attempted_on := none }

/-- Modelled from the spec's words (claim C2): the "Unable to deliver"
count the claim asserts — computed over the hub-filtered set with NO date
restriction on membership. -/
def spec_unable_count (df : List OrderRecord) (hub drv model : String) : Nat :=
  (df.filter fun r => decide (r.delivery_hub = hub ∧ r.driver_vehicle = drv ∧
    r.vehicle_model = model ∧ r.last_delivery_unable_to ≠ none)).length

/-- Input with one order whose `Delivered on` date (day 5) differs from the
selected date (day 10): zero orders match the selected date. -/
def exC1 : List OrderRecord :=
  [{ blank with
      delivery_hub := "H"
      status := "Delivered"
      delivered_on := some (5 * 1440) }]

/-- Three orders for driver D in hub H on day 10 — two Delivered, one
Returned (the Returned one also dated day 10 on `Delivered on`, which the
code's date filter requires for the row to see it). -/
def exC2 : List OrderRecord :=
  [{ blank with
      driver_vehicle := "D"
      vehicle_model := "Bike"
      delivery_hub := "H"
      status := "Delivered"
      delivered_on := some (10 * 1440 + 600) },
   { blank with
      driver_vehicle := "D"
      vehicle_model := "Bike"
      delivery_hub := "H"
      status := "Delivered"
      delivered_on := some (10 * 1440 + 660) },
   { blank with
      driver_vehicle := "D"
      vehicle_model := "Bike"
      delivery_hub := "H"
      status := "Returned"
      delivered_on := some (10 * 1440 + 700)
      returned_datetime_on := some (10 * 1440 + 800) }]

/-- One order in hub H with a non-missing `Last Delivery Unable-To` but no
`Delivered on` value: it is in the hub-filtered set the claim describes but
not in the code's `filtered_df`. -/
def exC2bad : List OrderRecord :=
  [{ blank with
      driver_vehicle := "D"
      vehicle_model := "Bike"
      delivery_hub := "H"
      status := "Unable-To-Deliver"
      last_delivery_unable_to := some (10 * 1440 + 100) }]

/-- One delivered order in hub H on day 10. -/
def exC3 : List OrderRecord :=
  [{ blank with
      driver_vehicle := "W"
      vehicle_model := "Bike"
      delivery_hub := "H"
      status := "Delivered"
      delivered_on := some (10 * 1440 + 60) }]

/-- Backlog example (selected date day 1): picked day 1 at 14:00, last
attempted day 0, status At-Hub — counted. -/
def bklA : OrderRecord :=
  { blank with
      delivery_hub := "H"
      status := "At-Hub"
      picked_on := some (1 * 1440 + 14 * 60)
      last_attempted_on := some (0 * 1440 + 600) }

/-- Backlog example: picked day 1 at 16:00 (after the 15:00 cutoff). -/
def bklB : OrderRecord :=
  { blank with
      delivery_hub := "H"
      status := "At-Hub"
      picked_on := some (1 * 1440 + 16 * 60)
      last_attempted_on := some (0 * 1440 + 600) }

/-- Backlog example: last attempted on the selected date itself. -/
def bklC : OrderRecord :=
  { blank with
      delivery_hub := "H"
      status := "At-Hub"
      picked_on := some (1 * 1440 + 14 * 60)
      last_attempted_on := some (1 * 1440 + 600) }

/-- One driver V1 active (out-for-delivery) on day 10 with one delivery at
hub H1. -/
def exC5 : List OrderRecord :=
  [{ blank with
      driver_vehicle := "V1"
      vehicle_model := "Bike"
      delivery_hub := "H1"
      status := "Out-For-Delivery"
      latest_out_for_delivery_on := some (10 * 1440 + 300)
      delivered_on := some (10 * 1440 + 400) }]

/-- Driver D with one delivered order and one out-for-delivery order in hub
H on day 10. -/
def exC7 : List OrderRecord :=
  [{ blank with
      driver_vehicle := "D"
      vehicle_model := "Bike"
      delivery_hub := "H"
      status := "Delivered"
      delivered_on := some (10 * 1440 + 600) },
   { blank with
      driver_vehicle := "D"
      vehicle_model := "Bike"
      delivery_hub := "H"
      status := "Out-For-Delivery"
      latest_out_for_delivery_on := some (10 * 1440 + 500) }]

/-- One Bike driver and one Auto-Rickshaw driver, both with hub HB as
primary hub on day 10. -/
def exC9 : List OrderRecord :=
  [{ blank with
      driver_vehicle := "B1"
      vehicle_model := "Bike"
      delivery_hub := "HB"
      status := "Delivered"
      latest_out_for_delivery_on := some (10 * 1440 + 10)
      delivered_on := some (10 * 1440 + 20) },
   { blank with
      driver_vehicle := "A1"
      vehicle_model := "Auto Rickshaw"
      delivery_hub := "HB"
      status := "Delivered"
      latest_out_for_delivery_on := some (10 * 1440 + 30)
      delivered_on := some (10 * 1440 + 40) }]

/-- Driver V has Out-For-Delivery activity in hub H on day 10 but no record
with `Delivered on` date = day 10; driver W has one delivered order. -/
def exC10 : List OrderRecord :=
  [{ blank with
      driver_vehicle := "W"
      vehicle_model := "Bike"
      delivery_hub := "H"
      status := "Delivered"
      delivered_on := some (10 * 1440 + 60) },
   { blank with
      driver_vehicle := "V"
      vehicle_model := "Bike"
      delivery_hub := "H"
      status := "Out-For-Delivery"
      latest_out_for_delivery_on := some (10 * 1440 + 90) }]

/-! ### Helper lemmas -/

theorem argmaxFirst_eq_none {α : Type _} {f : α → Nat} {l : List α} :
    argmaxFirst f l = none ↔ l = [] := by
  cases l with
  | nil => simp [argmaxFirst]
  | cons x xs =>
    simp only [argmaxFirst]
    cases argmaxFirst f xs with
    | none => simp
    | some y => dsimp only; split <;> simp

theorem argmaxFirst_mem {α : Type _} {f : α → Nat} :
    ∀ {l : List α} {a : α}, argmaxFirst f l = some a → a ∈ l := by
  intro l
  induction l with
  | nil => intro a h; simp [argmaxFirst] at h
  | cons x xs ih =>
    intro a h
    simp only [argmaxFirst] at h
    cases hxs : argmaxFirst f xs with
    | none =>
      rw [hxs] at h
      dsimp only at h
      have hxa : x = a := by simpa using h
      simp [hxa]
    | some y =>
      rw [hxs] at h
      dsimp only at h
      by_cases hc : f y ≤ f x
      · rw [if_pos hc] at h
        have hxa : x = a := by simpa using h
        simp [hxa]
      · rw [if_neg hc] at h
        have hya : y = a := by simpa using h
        subst hya
        exact List.mem_cons_of_mem _ (ih hxs)

theorem argmaxFirst_le {α : Type _} {f : α → Nat} :
    ∀ {l : List α} {a : α}, argmaxFirst f l = some a → ∀ b ∈ l, f b ≤ f a := by
  intro l
  induction l with
  | nil => intro a h; simp [argmaxFirst] at h
  | cons x xs ih =>
    intro a h b hb
    simp only [argmaxFirst] at h
    cases hxs : argmaxFirst f xs with
    | none =>
      rw [hxs] at h
      dsimp only at h
      have hxa : x = a := by simpa using h
      subst hxa
      have hxs' : xs = [] := argmaxFirst_eq_none.mp hxs
      subst hxs'
      have hbx : b = x := by simpa using hb
      subst hbx
      exact Nat.le_refl _
    | some y =>
      rw [hxs] at h
      dsimp only at h
      by_cases hc : f y ≤ f x
      · rw [if_pos hc] at h
        have hxa : x = a := by simpa using h
        subst hxa
        rcases List.mem_cons.mp hb with rfl | hbxs
        · exact Nat.le_refl _
        · exact Nat.le_trans (ih hxs b hbxs) hc
      · rw [if_neg hc] at h
        have hya : y = a := by simpa using h
        subst hya
        rcases List.mem_cons.mp hb with rfl | hbxs
        · exact Nat.le_of_lt (Nat.lt_of_not_le hc)
        · exact ih hxs b hbxs

theorem mem_insertSorted {α : Type _} (le : α → α → Bool) (x : α) :
    ∀ {l : List α} {a : α}, a ∈ insertSorted le x l ↔ a = x ∨ a ∈ l := by
  intro l
  induction l with
  | nil => intro a; simp [insertSorted]
  | cons y ys ih =>
    intro a
    simp only [insertSorted]
    split
    · simp [List.mem_cons]
    · simp only [List.mem_cons, ih]
      tauto

theorem mem_sortBy {α : Type _} (le : α → α → Bool) :
    ∀ {l : List α} {a : α}, a ∈ sortBy le l ↔ a ∈ l := by
  intro l
  induction l with
  | nil => intro a; simp [sortBy]
  | cons x xs ih =>
    intro a
    simp only [sortBy, mem_insertSorted, List.mem_cons, ih]

theorem sum_four_of_rows (rows : List HubRow)
    (h : ∀ r ∈ rows, r.total_order_count = r.delivered + r.unable + r.returned + r.out_on_road) :
    (rows.map (·.total_order_count)).sum =
      (rows.map (·.delivered)).sum + (rows.map (·.unable)).sum +
      (rows.map (·.returned)).sum + (rows.map (·.out_on_road)).sum := by
  induction rows with
  | nil => rfl
  | cons r rs ih =>
    simp only [List.map_cons, List.sum_cons]
    rw [h r (List.mem_cons_self r rs), ih fun x hx => h x (List.mem_cons_of_mem _ hx)]
    ring

theorem table_filter_map (ph : String → Option String) (hub : String) :
    ∀ l : List String,
      ((l.filterMap fun v => (ph v).map fun h => (v, h)).filter
        (fun p => decide (p.2 = hub))).map Prod.fst
      = l.filter fun v => decide (ph v = some hub) := by
  intro l
  induction l with
  | nil => rfl
  | cons v l ih =>
    cases hv : ph v with
    | none =>
      simp only [List.filterMap_cons, hv, Option.map_none', List.filter_cons]
      simp [hv, ih]
    | some h =>
      by_cases hh : h = hub
      · subst hh
        simp only [List.filterMap_cons, hv, Option.map_some', List.filter_cons]
        simp [hv, ih]
      · simp only [List.filterMap_cons, hv, Option.map_some', List.filter_cons]
        simp [hv, hh, ih]

theorem hour_bucket_isSome : ∀ h, h < 24 → (hour_bucket h).isSome = true := by decide

theorem hour_bucket_mem {h : Nat} {b : String} (hb : hour_bucket h = some b) :
    b ∈ bucket_names := by
  rw [hour_bucket] at hb
  obtain ⟨x, hx, rfl⟩ := Option.map_eq_some'.mp hb
  exact List.mem_map_of_mem _ (List.mem_of_find?_eq_some hx)

theorem hourOf_lt (t : Nat) : hourOf t < 24 := by
  have h1 : t % 1440 < 1440 := Nat.mod_lt _ (by norm_num)
  exact (Nat.div_lt_iff_lt_mul (by norm_num)).mpr (by omega)

theorem roundTo2_close (q : ℚ) : |roundTo2 q - q| ≤ 1 / 200 := by
  have h := abs_sub_round (100 * q)
  rw [roundTo2]
  have heq : ((round (100 * q) : ℤ) : ℚ) / 100 - q = -((100 * q - (round (100 * q) : ℤ)) / 100) := by
    ring
  rw [heq, abs_neg, abs_div]
  rw [show |(100 : ℚ)| = 100 from abs_of_pos (by norm_num)]
  linarith

/-! ### Claims -/

/-- Claim C1 (evaluation at the failing input): the claim demands that with
zero matching orders every percentage field is the string "0%" and no
division raises an error.  In the code the Hub-Summary Grand-Total
percentages (lines 330-338) have no zero-denominator guard: with zero
matching orders every bucket sums to 0, the division produces NaN, and
`int(NaN)` raises `ValueError` (modelled by `grand_total_hub` returning
`none`), so the run crashes instead of displaying "0%".  `exC1` holds one
order dated day 5 while day 10 is selected — zero matching orders, one hub
row. -/
theorem C1_hub_grand_total_crashes_on_zero_orders :
    grand_total_hub (hub_wise exC1 10) = none ∧ (hub_wise exC1 10).length = 1 := by
  constructor
  · decide
  · decide

/-- Claim C3: every Hub-Summary row, including the Grand Total row (when it
is produced), satisfies Total_order_count = Delivered + Unable_to_delivery +
Returned + Out_on_road; the raw per-hub row count is overwritten by this
sum before display. -/
theorem C3_hub_total_order_count_invariant :
    (∀ df d row, row ∈ hub_wise df d →
      row.total_order_count = row.delivered + row.unable + row.returned + row.out_on_road) ∧
    (∀ df d g, grand_total_hub (hub_wise df d) = some g →
      g.total_order_count = g.delivered + g.unable + g.returned + g.out_on_road) := by
  have hrowinv : ∀ df d row, row ∈ hub_wise df d →
      row.total_order_count = row.delivered + row.unable + row.returned + row.out_on_road := by
    intro df d row hrow
    simp only [hub_wise, List.mem_map] at hrow
    obtain ⟨h, _, rfl⟩ := hrow
    rfl
  refine ⟨hrowinv, ?_⟩
  intro df d g hg
  simp only [grand_total_hub] at hg
  by_cases ht : (List.map (fun r => r.total_order_count) (hub_wise df d)).sum = 0
  · rw [if_pos ht] at hg
    exact absurd hg (by simp)
  · rw [if_neg ht] at hg
    have hg' := (Option.some.injEq _ _).mp hg
    subst hg'
    exact sum_four_of_rows (hub_wise df d) fun r hr => hrowinv df d r hr

/-- Claim C4: the Backlog count of a hub equals the number of orders with
`picked_on` strictly before the selected date's 15:00 cutoff,
`last_attempted_on` strictly before (midnight of) the selected date, and
status in \x7bPicked, At-Hub, Returned-To-Hub\x7d; the three concrete
examples of the claim behave as stated (counted; picked after the cutoff:
not counted; attempted on the selected date: not counted). -/
theorem C4_backlog_characterization :
    (∀ (df : List OrderRecord) (d : Nat) (hub : String), backlog_count df d hub =
      (df.filter fun (r : OrderRecord) => decide (r.delivery_hub = hub ∧
        (∃ tp, r.picked_on = some tp ∧ tp < d * 1440 + 15 * 60) ∧
        (∃ ta, r.last_attempted_on = some ta ∧ ta < d * 1440) ∧
        r.status ∈ ["Picked", "At-Hub", "Returned-To-Hub"])).length) ∧
    backlog_count [bklA] 1 "H" = 1 ∧
    backlog_count [bklB] 1 "H" = 0 ∧
    backlog_count [bklC] 1 "H" = 0 := by
  refine ⟨?_, by decide, by decide, by decide⟩
  intro df d hub
  rw [backlog_count, backlog_df, List.filter_filter]
  congr 1
  apply List.filter_congr
  intro r _
  simp only [← Bool.decide_and]

/-- Grand Total row produced for `exC3` (one delivered order). -/
def gRowC3 : HubRow :=
  { hub := "Grand Total"
    number_of_vehicle := 0
    total_order_count := 1
    delivered := 1
    unable := 0
    returned := 0
    out_on_road := 0
    attempt_pct := "100%"
    delivered_pct := "100%"
    backlogs := 0 }

theorem C3_witness :
    gRowC3.total_order_count =
      gRowC3.delivered + gRowC3.unable + gRowC3.returned + gRowC3.out_on_road :=
  C3_hub_total_order_count_invariant.2 exC3 10 gRowC3 (by decide)

/-- Claim C6: the Driver-Summary Grand Total row's numeric columns each
equal the column-wise sum of the corresponding column over the non-total
rows, and its Delivered% is floor(100·grand_delivered/grand_total) rendered
as a percent string when the grand total is positive, "0%" otherwise (it is
recomputed from the grand totals, not summed from per-row percentages). -/
theorem C6_driver_grand_total (df : List OrderRecord) (d : Nat) (hub : String) :
    let rows := driver_summary df d hub
    let gt := grand_total rows
    gt.total = (rows.map (·.total)).sum ∧
    gt.delivered = (rows.map (·.delivered)).sum ∧
    gt.unable = (rows.map (·.unable)).sum ∧
    gt.returned = (rows.map (·.returned)).sum ∧
    gt.out_on_road = (rows.map (·.out_on_road)).sum ∧
    gt.delivered_pct =
      (if 0 < (rows.map (·.total)).sum
       then toString (⌊(((100 * (rows.map (·.delivered)).sum : ℕ)) : ℚ) /
         (((rows.map (·.total)).sum : ℕ) : ℚ)⌋₊) ++ "%"
       else "0%") := by
  intro rows gt
  refine ⟨rfl, rfl, rfl, rfl, rfl, ?_⟩
  show (if 0 < (rows.map (·.total)).sum
    then toString ((rows.map (·.delivered)).sum * 100 / (rows.map (·.total)).sum) ++ "%"
    else "0%") = _
  by_cases ht : 0 < (rows.map (·.total)).sum
  · rw [if_pos ht, if_pos ht]
    have hfloor : ⌊(((100 * (rows.map (·.delivered)).sum : ℕ)) : ℚ) /
        (((rows.map (·.total)).sum : ℕ) : ℚ)⌋₊
        = (100 * (rows.map (·.delivered)).sum) / (rows.map (·.total)).sum := by
      rw [Nat.floor_div_nat, Nat.floor_natCast]
    rw [hfloor, Nat.mul_comm]
  · rw [if_neg ht, if_neg ht]

/-- Claim C7: every Driver-Summary row's Out_on_road equals the size of the
separately filtered set (status Out-For-Delivery, latest out-for-delivery
date = selected date, hub = selected hub, this row's driver); in particular
a driver row with no out-on-road activity carries 0, not a missing value. -/
theorem C7_out_on_road_from_separate_filter (df : List OrderRecord) (d : Nat) (hub : String) :
    ∀ row ∈ driver_summary df d hub,
      row.out_on_road = (df.filter fun r => decide (r.status = "Out-For-Delivery" ∧
        optDate r.latest_out_for_delivery_on = some d ∧ r.delivery_hub = hub ∧
        r.driver_vehicle = row.name)).length ∧
      ((∀ r ∈ df, ¬(r.status = "Out-For-Delivery" ∧
        optDate r.latest_out_for_delivery_on = some d ∧ r.delivery_hub = hub ∧
        r.driver_vehicle = row.name)) → row.out_on_road = 0) := by
  intro row hrow
  simp only [driver_summary, List.mem_map] at hrow
  obtain ⟨k, _, rfl⟩ := hrow
  refine ⟨rfl, ?_⟩
  intro habs
  show out_on_road_count df d hub k.driver = 0
  rw [out_on_road_count, List.length_eq_zero, List.filter_eq_nil_iff]
  intro r hr
  simpa using habs r hr

/-- Driver-Summary row produced for driver D in `exC7`. -/
def rowC7 : DriverRow :=
  { name := "D"
    model := "Bike"
    total := 2
    delivered := 1
    unable := 0
    returned := 0
    out_on_road := 1
    delivered_pct := "50%" }

theorem C7_witness :
    rowC7.out_on_road = (exC7.filter fun r => decide (r.status = "Out-For-Delivery" ∧
      optDate r.latest_out_for_delivery_on = some 10 ∧ r.delivery_hub = "H" ∧
      r.driver_vehicle = rowC7.name)).length :=
  (C7_out_on_road_from_separate_filter exC7 10 "H" rowC7 (by decide)).1

/-- Any per-group count inside a driver-summary row equals a single filter
over the whole table: the group key's hub coincides with the selected hub,
so membership is the `Delivered on` date match, the hub match, the driver
and model match, and the counted predicate. -/
theorem group_count_eq (df : List OrderRecord) (d : Nat) (hub : String) (k : DriverKey)
    (hk : k ∈ driver_keys df d hub) (p : OrderRecord → Prop) [DecidablePred p] :
    (((filtered_df df d hub).filter fun r =>
        decide (r.driver_vehicle = k.driver ∧ r.vehicle_model = k.model ∧
          r.delivery_hub = k.hub)).filter fun r => decide (p r)).length
      = (df.filter fun r => decide (optDate r.delivered_on = some d ∧ r.delivery_hub = hub ∧
          r.driver_vehicle = k.driver ∧ r.vehicle_model = k.model ∧ p r)).length := by
  have hkhub : k.hub = hub := by
    simp only [driver_keys, List.mem_dedup, List.mem_map] at hk
    obtain ⟨r, hr, hkey⟩ := hk
    simp only [filtered_df, List.mem_filter, decide_eq_true_eq] at hr
    rw [← hkey]
    exact hr.2.2
  rw [filtered_df, List.filter_filter, List.filter_filter]
  congr 1
  apply List.filter_congr
  intro r _
  simp only [← Bool.decide_and]
  subst hkhub
  exact decide_eq_decide.mpr (by tauto)

/-- Claim C2 is false as stated: the set the driver-summary counts range
over is NOT merely hub-filtered — membership also requires `Delivered on`
date = selected date (line 117-120 of `IFO.py`).  In `exC2bad` one order of
driver D in hub H has a non-missing `Last Delivery Unable-To` but no
`Delivered on` value: the count the claim prescribes is 1, yet the code
produces no Driver-Summary row for D at all (so no row carries that
count). -/
theorem C2_counterexample :
    spec_unable_count exC2bad "H" "D" "Bike" = 1 ∧
    driver_summary exC2bad 10 "H" = [] := by
  constructor
  · decide
  · decide

/-- Claim C2 (amended): the Unable-to-deliver and Returned counts of a
driver row range over the records with the selected hub AND the selected
`Delivered on` date for that (driver, model), counting non-missing
`last_delivery_unable_to` / `returned_datetime_on`; the concrete scenario
holds once the Returned order also carries `Delivered on` date X: the row
for D is Delivered=2, Unable=0, Returned=1, Out_on_road=0, Total=3,
Delivered%="66%". -/
theorem C2_unable_returned_counts :
    (∀ df d hub row, row ∈ driver_summary df d hub →
      row.unable = (df.filter fun r => decide (optDate r.delivered_on = some d ∧
        r.delivery_hub = hub ∧ r.driver_vehicle = row.name ∧ r.vehicle_model = row.model ∧
        r.last_delivery_unable_to ≠ none)).length ∧
      row.returned = (df.filter fun r => decide (optDate r.delivered_on = some d ∧
        r.delivery_hub = hub ∧ r.driver_vehicle = row.name ∧ r.vehicle_model = row.model ∧
        r.returned_datetime_on ≠ none)).length) ∧
    driver_summary exC2 10 "H" =
      [{ name := "D", model := "Bike", total := 3, delivered := 2, unable := 0,
         returned := 1, out_on_road := 0, delivered_pct := "66%" }] := by
  refine ⟨?_, by decide⟩
  intro df d hub row hrow
  simp only [driver_summary, List.mem_map] at hrow
  obtain ⟨k, hk, rfl⟩ := hrow
  exact ⟨group_count_eq df d hub k hk (fun r => r.last_delivery_unable_to ≠ none),
    group_count_eq df d hub k hk (fun r => r.returned_datetime_on ≠ none)⟩

/-- Driver-Summary row produced for driver D in `exC2`. -/
def rowC2 : DriverRow :=
  { name := "D"
    model := "Bike"
    total := 3
    delivered := 2
    unable := 0
    returned := 1
    out_on_road := 0
    delivered_pct := "66%" }

theorem C2_witness :
    rowC2.unable = (exC2.filter fun r => decide (optDate r.delivered_on = some 10 ∧
      r.delivery_hub = "H" ∧ r.driver_vehicle = rowC2.name ∧ r.vehicle_model = rowC2.model ∧
      r.last_delivery_unable_to ≠ none)).length :=
  (C2_unable_returned_counts.1 exC2 10 "H" rowC2 (by decide)).1

/-- Claim C5: the Number of Vehicles of a hub equals the number of distinct
considered drivers whose primary hub is that hub; a driver is considered
iff it has an out-for-delivery event on the selected date; every considered
driver is assigned exactly one primary hub (the `Option`-valued
`primary_hub_of` returns `some`), and that hub attains the maximum delivery
count among the driver's (driver, hub) pairs. -/
theorem C5_number_of_vehicles :
    (∀ (df : List OrderRecord) (d : Nat) (hub : String),
      calculate_number_of_vehicle df d hub =
        ((considered_drivers df d).filter fun v =>
          decide (primary_hub_of df d v = some hub)).length) ∧
    (∀ (df : List OrderRecord) (d : Nat) (v : String), v ∈ considered_drivers df d ↔
      ∃ r ∈ df, r.driver_vehicle = v ∧ optDate r.latest_out_for_delivery_on = some d) ∧
    (∀ (df : List OrderRecord) (d : Nat) (v : String), v ∈ considered_drivers df d →
      ∃ h, primary_hub_of df d v = some h ∧ h ∈ hubs_of (nov_filtered df d) v ∧
        ∀ h' ∈ hubs_of (nov_filtered df d) v,
          delivery_count (nov_filtered df d) v h' ≤ delivery_count (nov_filtered df d) v h) := by
  refine ⟨?_, ?_, ?_⟩
  · intro df d hub
    rw [calculate_number_of_vehicle, primary_hub_table,
      table_filter_map (primary_hub_of df d) hub]
    have hnd : ((considered_drivers df d).filter fun v =>
        decide (primary_hub_of df d v = some hub)).Nodup :=
      (List.filter_sublist _).nodup (List.nodup_dedup _)
    rw [List.Nodup.dedup hnd]
  · intro df d v
    simp only [considered_drivers, List.mem_dedup, List.mem_map, nov_filtered,
      List.mem_filter, decide_eq_true_eq]
    constructor
    · rintro ⟨r, ⟨hrdf, hdate⟩, rfl⟩
      exact ⟨r, hrdf, rfl, hdate⟩
    · rintro ⟨r, hrdf, rfl, hdate⟩
      exact ⟨r, ⟨hrdf, hdate⟩, rfl⟩
  · intro df d v hv
    have hex : ∃ r ∈ nov_filtered df d, r.driver_vehicle = v := by
      simpa only [considered_drivers, List.mem_dedup, List.mem_map] using hv
    obtain ⟨r, hrnov, hrv⟩ := hex
    have hhub : r.delivery_hub ∈ hubs_of (nov_filtered df d) v := by
      simp only [hubs_of, List.mem_dedup, List.mem_map]
      exact ⟨r, List.mem_filter.mpr ⟨hrnov, by simp [hrv]⟩, rfl⟩
    have hsorted : r.delivery_hub ∈ sorted_hubs_of (nov_filtered df d) v := by
      rw [sorted_hubs_of, mem_sortBy]
      exact hhub
    cases hph : argmaxFirst (delivery_count (nov_filtered df d) v)
        (sorted_hubs_of (nov_filtered df d) v) with
    | none =>
      rw [argmaxFirst_eq_none] at hph
      rw [hph] at hsorted
      exact absurd hsorted (List.not_mem_nil _)
    | some h =>
      refine ⟨h, hph, ?_, ?_⟩
      · have hm := argmaxFirst_mem hph
        rw [sorted_hubs_of, mem_sortBy] at hm
        exact hm
      · intro h' hh'
        have hh's : h' ∈ sorted_hubs_of (nov_filtered df d) v := by
          rw [sorted_hubs_of, mem_sortBy]
          exact hh'
        exact argmaxFirst_le hph h' hh's

theorem C5_witness :
    calculate_number_of_vehicle exC5 10 "H1" =
      ((considered_drivers exC5 10).filter fun v =>
        decide (primary_hub_of exC5 10 v = some "H1")).length ∧
    (∃ h, primary_hub_of exC5 10 "V1" = some h ∧ h ∈ hubs_of (nov_filtered exC5 10) "V1" ∧
      ∀ h' ∈ hubs_of (nov_filtered exC5 10) "V1",
        delivery_count (nov_filtered exC5 10) "V1" h' ≤
          delivery_count (nov_filtered exC5 10) "V1" h) :=
  ⟨C5_number_of_vehicles.1 exC5 10 "H1",
   C5_number_of_vehicles.2.2 exC5 10 "V1" (by decide)⟩

/-- Claim C8: a missing timestamp maps to no bucket; every timestamp maps to
exactly one of the 17 buckets, determined by the hour component alone; the
dense hub-view table always has 6 × 17 rows and the customer view 13 × 17
rows, and an absent (hub, bucket) combination appears with count 0. -/
theorem C8_time_bucket_distribution :
    categorize_time none = none ∧
    (∀ t : Nat, ∃ b, b ∈ bucket_names ∧ categorize_time (some t) = some b ∧
      ∀ t' : Nat, hourOf t' = hourOf t → categorize_time (some t') = some b) ∧
    (∀ (df : List OrderRecord) (d : Nat), (time_distribution df d).length = 6 * 17) ∧
    (∀ (df : List OrderRecord) (d : Nat),
      (customer_time_distribution df d).length = 13 * 17) ∧
    (∀ (df : List OrderRecord) (d : Nat) (h b : String),
      h ∈ delivery_hubs → b ∈ bucket_names →
      (∀ r ∈ fod_filtered df d,
        ¬(r.delivery_hub = h ∧ categorize_time r.first_out_for_delivery_on = some b)) →
      (h, b, 0) ∈ time_distribution df d) := by
  refine ⟨rfl, ?_, ?_, ?_, ?_⟩
  · intro t
    have hs := hour_bucket_isSome (hourOf t) (hourOf_lt t)
    obtain ⟨b, hb⟩ := Option.isSome_iff_exists.mp hs
    refine ⟨b, hour_bucket_mem hb, by simpa [categorize_time] using hb, ?_⟩
    intro t' ht'
    simpa [categorize_time, ht'] using hb
  · intro df d
    rw [time_distribution, List.length_map]
    rfl
  · intro df d
    rw [customer_time_distribution, List.length_map]
    rfl
  · intro df d h b hh hb habs
    have hcount : hub_bucket_count df d h b = 0 := by
      rw [hub_bucket_count, List.length_eq_zero, List.filter_eq_nil_iff]
      intro r hr
      simpa using habs r hr
    rw [time_distribution, List.mem_map]
    refine ⟨(h, b), ?_, by rw [hcount]⟩
    rw [all_combinations, List.mem_flatMap]
    exact ⟨h, hh, List.mem_map_of_mem _ hb⟩

theorem C8_witness :
    ("Hebbal [ BH Micro warehouse ]", "12AM-1AM", 0) ∈ time_distribution [] 0 :=
  C8_time_bucket_distribution.2.2.2.2 [] 0 _ _ (by decide) (by decide)
    (fun r hr => absurd hr (List.not_mem_nil r))

/-- Claim C9: in every Vehicle-Utilization row the final Total_count equals
Count_of_Bikes + Count_of_Autos (NaN-propagating: the raw distinct-vehicle
count assigned first is overwritten and never shown), and whenever the
total is a positive number the two rounded ratio values sum to 100 up to
rounding at two decimal places. -/
theorem C9_vehicle_utilization_ratios (df : List OrderRecord) (d : Nat) :
    ∀ row ∈ vehicle_utilization df d,
      row.total_count = optAdd row.count_of_bikes row.count_of_autos ∧
      ∀ t, row.total_count = some t → 0 < t →
        |row.ratio_bikes + row.ratio_autos - 100| ≤ 1 / 100 := by
  intro row hrow
  simp only [vehicle_utilization, List.mem_map] at hrow
  obtain ⟨h, _, rfl⟩ := hrow
  refine ⟨rfl, ?_⟩
  intro t ht hpos
  cases hvc : vehicle_counts_row df d h with
  | none =>
    exfalso
    simp [finalize_vehicle_row, mkVehicleRowRaw, hvc, optAdd] at ht
  | some ba =>
    obtain ⟨b, a⟩ := ba
    have hba : b + a = t := by
      simpa [finalize_vehicle_row, mkVehicleRowRaw, hvc, optAdd] using ht
    have hne : ((b : ℚ) + a) ≠ 0 := by
      have : 0 < b + a := hba ▸ hpos
      exact_mod_cast Nat.pos_iff_ne_zero.mp (by exact_mod_cast this)
    have hxy : 100 * ((b : ℚ) / ((b : ℚ) + a)) + 100 * ((a : ℚ) / ((b : ℚ) + a)) = 100 := by
      field_simp
      ring
    have hshape : (finalize_vehicle_row (hub_delivered df d h) (mkVehicleRowRaw df d h)).ratio_bikes
          = roundTo2 (100 * ((b : ℚ) / ((b : ℚ) + a)))
        ∧ (finalize_vehicle_row (hub_delivered df d h) (mkVehicleRowRaw df d h)).ratio_autos
          = roundTo2 (100 * ((a : ℚ) / ((b : ℚ) + a))) := by
      constructor <;>
        simp [finalize_vehicle_row, mkVehicleRowRaw, hvc, optAdd, ratioOf,
          Nat.pos_iff_ne_zero.mp (hba ▸ hpos), Nat.cast_add]
    rw [hshape.1, hshape.2]
    set x := 100 * ((b : ℚ) / ((b : ℚ) + a)) with hxdef
    set y := 100 * ((a : ℚ) / ((b : ℚ) + a)) with hydef
    have h1 := roundTo2_close x
    have h2 := roundTo2_close y
    have hsum : roundTo2 x + roundTo2 y - 100 = (roundTo2 x - x) + (roundTo2 y - y) := by
      rw [← hxy]
      ring
    rw [hsum]
    calc |(roundTo2 x - x) + (roundTo2 y - y)|
        ≤ |roundTo2 x - x| + |roundTo2 y - y| := abs_add _ _
      _ ≤ 1 / 100 := by linarith

/-- Vehicle-Utilization row produced for hub HB in `exC9` (its numeric
value is `⟨"HB", some 1, some 1, some 2, 50, 50, 1⟩`). -/
def rowC9 : VehicleUtilRow :=
  finalize_vehicle_row (hub_delivered exC9 10 "HB") (mkVehicleRowRaw exC9 10 "HB")

theorem C9_witness :
    rowC9.total_count = optAdd rowC9.count_of_bikes rowC9.count_of_autos ∧
    |rowC9.ratio_bikes + rowC9.ratio_autos - 100| ≤ 1 / 100 := by
  have hmem : rowC9 ∈ vehicle_utilization exC9 10 :=
    List.mem_map.mpr ⟨"HB", by decide, rfl⟩
  have h := C9_vehicle_utilization_ratios exC9 10 rowC9 hmem
  exact ⟨h.1, h.2 2 (by decide) (by decide)⟩

/-- Claim C10: a driver with no record whose `Delivered on` date equals the
selected date in the selected hub produces no row at all in the Driver
Summary — even with Out-For-Delivery activity on that date — because the
row set comes from `filtered_df` only and the left join drops out-on-road
counts of absent drivers; concretely, in `exC10` driver V (out-for-delivery
on day 10 in hub H, never delivered-dated) yields no row, and its activity
contributes nothing to any row or to the Grand Total. -/
theorem C10_driver_without_delivered_date_has_no_row :
    (∀ (df : List OrderRecord) (d : Nat) (hub v : String),
      (∀ r ∈ df, ¬(r.driver_vehicle = v ∧ r.delivery_hub = hub ∧
        optDate r.delivered_on = some d)) →
      ∀ row ∈ driver_summary df d hub, row.name ≠ v) ∧
    driver_summary exC10 10 "H" =
      [{ name := "W", model := "Bike", total := 1, delivered := 1, unable := 0,
         returned := 0, out_on_road := 0, delivered_pct := "100%" }] ∧
    (grand_total (driver_summary exC10 10 "H")).out_on_road = 0 := by
  refine ⟨?_, by decide, by decide⟩
  intro df d hub v hv row hrow
  simp only [driver_summary, List.mem_map] at hrow
  obtain ⟨k, hk, rfl⟩ := hrow
  simp only [driver_keys, List.mem_dedup, List.mem_map] at hk
  obtain ⟨r, hr, hkey⟩ := hk
  simp only [filtered_df, List.mem_filter, decide_eq_true_eq] at hr
  subst hkey
  intro hname
  exact hv r hr.1 ⟨hname, hr.2.2, hr.2.1⟩

/-- Driver-Summary row produced for driver W in `exC10`. -/
def rowC10 : DriverRow :=
  { name := "W"
    model := "Bike"
    total := 1
    delivered := 1
    unable := 0
    returned := 0
    out_on_road := 0
    delivered_pct := "100%" }

theorem C10_witness : rowC10.name ≠ "V" :=
  C10_driver_without_delivered_date_has_no_row.1 exC10 10 "H" "V" (by decide)
    rowC10 (by decide)
